import Mathlib

/-!
Verification of the artifact-acquisition layer of brainspresso/braindataprep.

The definitions below are a shallow embedding of the Python sources:
  * `src/brainspresso/utils/digests.py`   (digest priority and sorting)
  * `src/brainspresso/download/incomplete.py` (IncompleteFile)
  * `src/braindataprep/actions/file.py`   (File transactions)
  * `src/braindataprep/actions/action.py` (Action, IfExists)
  * `src/braindataprep/download/downloader.py` (Downloader, IfExists)
  * `src/braindataprep/download/manager.py` (DownloadManager)
Filesystem contents are modelled as explicit state; Python exceptions are
modelled with `Except`; status dictionaries are modelled as `StatusRecord`
with `none` standing for an absent field.  Floating-point throughput
figures and wall-clock timing are not modelled.
-/

/-- Byte strings are modelled as lists of naturals. -/
abbrev Bytes := List Nat

/-- Python exceptions that the embedded code can raise. -/
inductive PyError where
  | typeError
  | valueError
  | fileExistsError
  | attributeError (name : String)
  | fileNotFoundError
deriving DecidableEq, Repr

/-- Stand-in for Python `str(e)` on an exception. -/
def PyError.msg : PyError → String
  | .typeError => "TypeError: attribute name must be string"
  | .valueError => "ValueError"
  | .fileExistsError => "FileExistsError: file already exists"
  | .attributeError n => "AttributeError: module hashlib has no attribute " ++ n
  | .fileNotFoundError => "FileNotFoundError"

/-- A status dictionary yielded by an Action or a Downloader.  A field set
to `none` models a key that is absent from the dictionary. -/
structure StatusRecord where
  status : Option String := none
  message : Option String := none
  checksum : Option String := none
  size : Option Nat := none
  done : Option Nat := none
deriving DecidableEq, Repr

/-- The record `{'status': 'skipped', 'message': 'already exists'}`. -/
def skippedRecord : StatusRecord :=
  { status := some "skipped", message := some "already exists" }

/-- The record `{'status': 'done'}`. -/
def doneRecord : StatusRecord := { status := some "done" }

/-- The record `{'status': 'setting mtime'}`. -/
def settingMtimeRecord : StatusRecord := { status := some "setting mtime" }

/-- The record `{'checksum': 'ok'}`. -/
def checksumOkRecord : StatusRecord := { checksum := some "ok" }

/-- The record `{'checksum': '-'}`. -/
def checksumDashRecord : StatusRecord := { checksum := some "-" }

/-- A record whose `status` field is one of the three terminal values. -/
def isTerminal (r : StatusRecord) : Bool :=
  r.status == some "done" || r.status == some "skipped" || r.status == some "error"

/-! ## Digests (`src/brainspresso/utils/digests.py`) -/

/-- The algorithms hashlib guarantees, in the order of the `DigestPriority`
IntEnum of `digests.py` (members are numbered from 1). -/
def hashlibAlgos : List String :=
  ["md5", "sha1", "sha256", "sha512", "sha224", "sha384",
   "sha3_224", "sha3_256", "sha3_384", "sha3_512",
   "shake_128", "shake_256", "blake2b", "blake2s"]

/-- `getattr(DigestPriority, name, inf)`: the IntEnum value of a known
algorithm, and a value larger than every member (modelling `float('inf')`)
for an unknown one. -/
def DigestPriority (s : String) : Nat :=
  if s == "md5" then 1
  else if s == "sha1" then 2
  else if s == "sha256" then 3
  else if s == "sha512" then 4
  else if s == "sha224" then 5
  else if s == "sha384" then 6
  else if s == "sha3_224" then 7
  else if s == "sha3_256" then 8
  else if s == "sha3_384" then 9
  else if s == "sha3_512" then 10
  else if s == "shake_128" then 11
  else if s == "shake_256" then 12
  else if s == "blake2b" then 13
  else if s == "blake2s" then 14
  else 1000

/-- Sort key comparison used by `sort_digests`. -/
def DigestLE (a b : String × String) : Prop :=
  DigestPriority a.1 ≤ DigestPriority b.1

instance : DecidableRel DigestLE := fun _ _ => Nat.decLe _ _

instance : IsTotal (String × String) DigestLE :=
  ⟨fun a b => Nat.le_total (DigestPriority a.1) (DigestPriority b.1)⟩

instance : IsTrans (String × String) DigestLE :=
  ⟨fun _ _ _ => Nat.le_trans⟩

/-- `sort_digests`: the digest mapping (an association list of
algorithm-name/hex-digest pairs) reordered by priority.  Python's `sorted`
is a stable sort by the priority key; `List.insertionSort` is the stable
sort with the same key, hence the same function. -/
def sort_digests (ds : List (String × String)) : List (String × String) :=
  List.insertionSort DigestLE ds

/-! ## On-disk files -/

/-- Metadata of a file that exists on disk.  `digestOf` gives the content
digest that `get_digest` would recompute for each algorithm name. -/
structure LocalFile where
  size : Nat
  mtime : Int
  digestOf : String → String

/-- A filesystem: a partial map from paths to files. -/
abbrev FS := String → Option LocalFile

/-- `get_digest(filepath, digest)`: `Digester.__init__` evaluates
`getattr(hashlib, digest)`, raising `AttributeError` for a name hashlib
does not define; then the file is opened and hashed. -/
def get_digest (fs : FS) (path : String) (algo : String) : Except PyError String :=
  if hashlibAlgos.contains algo then
    match fs path with
    | some f => .ok (f.digestOf algo)
    | none => .error .fileNotFoundError
  else .error (.attributeError algo)

/-! ## IfExists (two copies: `actions/action.py` and `download/downloader.py`) -/

/-- The `IfExists.Enum` members. -/
inductive IfExists.Enum where
  | SKIP | OVERWRITE | DIFFERENT | REFRESH | ERROR
deriving DecidableEq, Repr

/-- The `IfExists.Choice` literal strings. -/
inductive IfExists.Choice where
  | skip | overwrite | different | refresh | error
deriving DecidableEq, Repr

/-- Class attribute `IfExists.default`. -/
def IfExists.defaultEnum : IfExists.Enum := .DIFFERENT

/-- `getattr(cls.Enum, x[0].upper())`: a choice string selects the enum
member whose alias is its first letter. -/
def IfExists.ofChoice : IfExists.Choice → IfExists.Enum
  | .skip => .SKIP
  | .overwrite => .OVERWRITE
  | .different => .DIFFERENT
  | .refresh => .REFRESH
  | .error => .ERROR

/-- `IfExists.from_any`: `None` selects the class default. -/
def IfExists.from_any : Option IfExists.Choice → IfExists.Enum
  | none => IfExists.defaultEnum
  | some c => IfExists.ofChoice c

/-- `IfExists.current or self.ifexists`: enum members are always truthy,
so a set override wins over the per-object default. -/
def IfExists.effective (current : Option IfExists.Enum) (own : IfExists.Enum) :
    IfExists.Enum :=
  current.getD own

/-- A downloader-module `IfExists` context-manager instance: its `value`
and its `_prev` slot.  `current` (the class attribute) is threaded
explicitly. -/
structure DlIfExistsScope where
  value : IfExists.Enum
  prev : Option IfExists.Enum
deriving DecidableEq, Repr

/-- `downloader.IfExists.__enter__`: `self._prev = type(self).current;
type(self).current = self.value`.  Returns the updated instance and the
new class-level `current`. -/
def DlIfExistsScope.enter (s : DlIfExistsScope) (current : Option IfExists.Enum) :
    DlIfExistsScope × Option IfExists.Enum :=
  ({ s with prev := current }, some s.value)

/-- `downloader.IfExists.__exit__`: `type(self).current = self._prev;
self._prev = None`. -/
def DlIfExistsScope.exitScope (s : DlIfExistsScope) :
    DlIfExistsScope × Option IfExists.Enum :=
  ({ s with prev := none }, s.prev)

/-- An actions-module `IfExists` context-manager instance. -/
structure ActIfExistsScope where
  value : IfExists.Enum
  prev : Option IfExists.Enum
deriving DecidableEq, Repr

/-- `action.IfExists.__enter__` (action.py line 73): `self._prev =
self.default; type(self).current = self.value`.  Note that it saves the
class default, not the active `current`. -/
def ActIfExistsScope.enter (s : ActIfExistsScope) (_current : Option IfExists.Enum) :
    ActIfExistsScope × Option IfExists.Enum :=
  ({ s with prev := some IfExists.defaultEnum }, some s.value)

/-- `action.IfExists.__exit__`: `type(self).current = self._prev;
self._prev = None`. -/
def ActIfExistsScope.exitScope (s : ActIfExistsScope) :
    ActIfExistsScope × Option IfExists.Enum :=
  ({ s with prev := none }, s.prev)

/-! ## File transactions (`src/braindataprep/actions/file.py`) -/

/-- The slice of the filesystem a `File` transaction touches: the final
path and the temporary file `X.tmp/X`.  Entries are file contents; the
lock file and directory-shaped destinations are not modelled. -/
structure TxState where
  final : Option Bytes
  temp : Option Bytes
deriving DecidableEq, Repr

/-- `File.__exit__` (file.py lines 193-225): when the context was left
without an exception and the temp file exists, the temp file replaces the
final path (`Path.replace`); in every case the temp directory is removed. -/
def File.exitCtx (success : Bool) (st : TxState) : TxState :=
  if success then
    match st.temp with
    | some t => { final := some t, temp := none }
    | none => { st with temp := none }
  else { st with temp := none }

/-! ## IncompleteFile (`src/brainspresso/download/incomplete.py`) -/

/-- Python truthiness of an optional string. -/
def pyTruthy : Option String → Bool
  | none => false
  | some s => !(s == "")

/-- Python `==` between an `str`-or-`None` and an `str`-or-`None`. -/
def pyEqOpt : Option String → Option String → Bool
  | some a, some b => a == b
  | none, none => true
  | _, _ => false

/-- The fields `IncompleteFile.__init__` assigns. -/
structure IncompleteFileState where
  filename : String
  tempname : String
  lockname : String
  checkname : String
  checksum : Option String
  checkalgo : Option String
  ifnochecksum : Char
deriving DecidableEq, Repr

/-- `IncompleteFile.__init__` (incomplete.py lines 47-89).  Its validity
check is `if checkalgo and not hasattr(checkalgo, hashlib)`: `hasattr` is
called with the algorithm string as the object and the hashlib module as
the attribute name, and an attribute name that is not a string makes
`hasattr` itself raise `TypeError` - so every truthy `checkalgo` raises
before any lock or file is touched, and the guarded `ValueError` is
unreachable. -/
def IncompleteFile.init (filename : String) (checksum checkalgo : Option String)
    (ifnochecksum : String) : Except PyError IncompleteFileState :=
  if pyTruthy checkalgo then .error .typeError
  else .ok {
    filename := filename
    tempname := filename ++ ".download"
    lockname := filename ++ ".lock"
    checkname := filename ++ ".checksum"
    checksum := checksum
    checkalgo := checkalgo
    ifnochecksum := (ifnochecksum.front.toLower)
  }

/-- What `IncompleteFile.__aenter__` reads from disk: whether the partial
file `X.download` exists, its byte length, and the content of the digest
marker `X.checksum` (if present). -/
structure IncompleteDisk where
  tempExists : Bool
  tempLen : Nat
  marker : Option String
deriving DecidableEq, Repr

/-- The resume-vs-restart decision of `IncompleteFile.__aenter__`
(incomplete.py lines 126-128): keep the partial file iff it exists and
either the expected checksum is truthy and equals the persisted marker,
or no checksum was expected and the fallback is `continue`. -/
def IncompleteFile.aenterCont (checksum : Option String) (ifnochecksum : Char)
    (d : IncompleteDisk) : Bool :=
  d.tempExists &&
    ((pyTruthy checksum && pyEqOpt checksum d.marker) ||
     (!pyTruthy checksum && (ifnochecksum == 'c')))

/-- The offset `IncompleteFile.__aenter__` ends with: the partial file's
length after an append-mode open when resuming (`self.file.tell()`), and
`0` after unlink plus truncate-mode open when restarting. -/
def IncompleteFile.aenterOffset (checksum : Option String) (ifnochecksum : Char)
    (d : IncompleteDisk) : Nat :=
  if IncompleteFile.aenterCont checksum ifnochecksum d then d.tempLen else 0

/-- The open IncompleteFile context: final path, the partial file's
content (the file exists while the context is open), and the marker. -/
structure DlFileState where
  final : Option Bytes
  temp : Bytes
  marker : Option String
deriving DecidableEq, Repr

/-- The on-disk state after `IncompleteFile.__aexit__`. -/
structure DlFileAfter where
  final : Option Bytes
  temp : Option Bytes
  marker : Option String
deriving DecidableEq, Repr

/-- `IncompleteFile.__aexit__` (incomplete.py lines 174-220): without an
exception, the partial file is renamed onto the final path and the
partial, lock and marker files are deleted; on an exception only the lock
is released - the final path, partial file and marker are untouched. -/
def IncompleteFile.aexit (success : Bool) (st : DlFileState) : DlFileAfter :=
  if success then { final := some st.temp, temp := none, marker := none }
  else { final := st.final, temp := some st.temp, marker := st.marker }

/-! ## Action (`src/braindataprep/actions/action.py`) -/

/-- `os.stat(dst).st_size`, meaningful only where the file exists (all
uses below are guarded by an existence check, as in the source). -/
def statSize (fs : FS) (d : String) : Nat :=
  ((fs d).map (·.size)).getD 0

/-- `os.stat(dst).st_mtime` in UTC, guarded by existence as in the source. -/
def statMtime (fs : FS) (d : String) : Int :=
  ((fs d).map (·.mtime)).getD 0

/-- The digest an existing destination hashes to.  This total accessor is
used only in decision formulas and claim-side transcriptions; the source
embeddings call `get_digest`, which can raise. -/
def digestOfFile (fs : FS) (d : String) (algo : String) : String :=
  ((fs d).map (·.digestOf algo)).getD ""

/-- The arguments of an `Action` that its overwrite decision and its
verification phase consult.  `digests` is the association list already
ordered by `sort_digests` (as done in `Action.__init__`). -/
structure ActionSpec where
  dst : List String
  size : Option Nat
  mtime : Option Int
  digests : List (String × String)
  ifexists : IfExists.Enum
deriving Repr

/-- The digest comprehension of `Action._should_overwrite` line 237:
`[(get_digest(dst1, checkalgo) != checksum) for dst1 in dst]` combined
with `any`.  Each `get_digest` call can raise (`AttributeError` for an
algorithm hashlib lacks, `FileNotFoundError` for a missing file); the
first raising call wins, as in the comprehension's left-to-right
evaluation. -/
def Action.digestDiffers (fs : FS) (checkalgo checksum : String) :
    List String → Except PyError Bool
  | [] => .ok false
  | d :: ds =>
    match get_digest fs d checkalgo with
    | .error e => .error e
    | .ok out =>
      match Action.digestDiffers fs checkalgo checksum ds with
      | .error e => .error e
      | .ok rest => .ok (!(out == checksum) || rest)

/-- `Action._should_overwrite` (action.py lines 180-297).  Returns the
yielded records and the decision, or the exception escaping the method:
the `FileExistsError` raised under the ERROR policy, and any exception of
`get_digest` under DIFFERENT (the call at line 239 is outside every
`try`).  The branch structure mirrors the `elif` chain, including the
final `return True` every unmatched case falls through to.  Under
DIFFERENT, the digest comparison uses the correctly-unpacked first entry
of the sorted digests (line 236) and tests every destination. -/
def Action.should_overwrite (fs : FS) (a : ActionSpec)
    (current : Option IfExists.Enum) :
    Except PyError (List StatusRecord × Bool) :=
  let existsAny := a.dst.any (fun d => (fs d).isSome)
  let existsAll := a.dst.all (fun d => (fs d).isSome)
  let ifexists := IfExists.effective current a.ifexists
  if ifexists == .ERROR && existsAny then
    .error .fileExistsError
  else if ifexists == .SKIP && existsAll then
    .ok ([skippedRecord], false)
  else if ifexists == .OVERWRITE && existsAny then
    .ok ([], true)
  else if ifexists == .DIFFERENT then
    if !existsAll then .ok ([], true)
    else if a.dst.any (fun d => a.size.elim false (fun n => !(n == statSize fs d))) then
      .ok ([], true)
    else
      match a.digests.head? with
      | some (checkalgo, checksum) =>
        match Action.digestDiffers fs checkalgo checksum a.dst with
        | .error e => .error e
        | .ok true => .ok ([], true)
        | .ok false => .ok ([skippedRecord], false)
      | none => .ok ([skippedRecord], false)
  else if ifexists == .REFRESH then
    if !existsAll then .ok ([], true)
    else
      match a.mtime with
      | none => .ok ([], true)
      | some mt =>
        if a.dst.all (fun d => statMtime fs d == mt) then
          .ok ([skippedRecord], false)
        else .ok ([], true)
  else .ok ([], true)

/-- The per-destination digest loop of `Action._iter` (lines 377-401),
called with the swapped pair of line 344: `checkalgo` is the argument
passed to `get_digest` and `checksum1` the value each recomputed digest
is compared against.  Returns the yielded records and whether the loop
completed (a mismatch yields the `differs` record and stops). -/
def Action.verifyLoop (fs : FS) (checkalgo : String) (checksum1 : String) :
    List String → Except PyError (List StatusRecord × Bool)
  | [] => .ok ([], true)
  | d :: ds => do
    let out ← get_digest fs d checkalgo
    if !(out == checksum1) then
      .ok ([{ checksum := some "differs", status := some "error",
              message := some (checkalgo ++ ": output " ++ out ++ " != " ++ checksum1) }],
           false)
    else do
      let (rest, completed) ← Action.verifyLoop fs checkalgo checksum1 ds
      .ok (checksumOkRecord :: rest, completed)

/-- The tail of `Action._iter` after the transform succeeded (action.py
lines 342-423): line 344 unpacks `checksum, checkalgo =
next(iter(self.digests.items()))`, so `checksum` receives the algorithm
name and `checkalgo` the expected hex value.  Any exception of the digest
loop is caught at line 421 and yielded as a plain error record.  Returns
the yielded records and whether the destinations' mtime was set. -/
def Action.finishAfterSuccess (fs : FS) (a : ActionSpec) :
    List StatusRecord × Bool :=
  match a.digests.head? with
  | some (algoname, hexvalue) =>
    match Action.verifyLoop fs hexvalue algoname a.dst with
    | .error e => ([{ status := some "error", message := some e.msg }], false)
    | .ok (recs, completed) =>
      if completed then (recs ++ [settingMtimeRecord, doneRecord], true)
      else (recs, false)
  | none => ([checksumDashRecord, settingMtimeRecord, doneRecord], true)

/-! ## Downloader (`src/braindataprep/download/downloader.py`) -/

/-- The constructor arguments of a `Downloader` that the embedded parts
consult.  `digests` is the association list already ordered by
`sort_digests` (as done in `Downloader.__init__`). -/
structure DownloaderSpec where
  ifexists : IfExists.Enum
  size : Option Nat
  mtime : Option Int
  digests : List (String × String)
  ifnodigest : String
deriving Repr

/-- What the remote server reports (content-length, last-modified). -/
structure RemoteMeta where
  size : Option Nat
  mtime : Option Int
deriving DecidableEq, Repr

/-- `await self.size`: the expected size if supplied, else the size
fetched from the remote (which may itself be unknown). -/
def Downloader.effSize (cfg : DownloaderSpec) (remote : RemoteMeta) : Option Nat :=
  cfg.size.orElse (fun _ => remote.size)

/-- `await self.mtime`: expected mtime if supplied, else the remote's. -/
def Downloader.effMtime (cfg : DownloaderSpec) (remote : RemoteMeta) : Option Int :=
  cfg.mtime.orElse (fun _ => remote.mtime)

/-- `Downloader._should_overwrite` (downloader.py lines 258-350) for the
single destination `dstFile` (`none` when `self.dst` does not exist).
Returns the yielded records and the final yielded decision.  Under ERROR
the source logs and plainly returns, yielding nothing, so the caller's
`should_overwrite` stays `False` (lines 266-268, 362-369).  Under
DIFFERENT with no expected digest the source falls through to `yield
True` (line 309). -/
def Downloader.should_overwrite (cfg : DownloaderSpec) (remote : RemoteMeta)
    (current : Option IfExists.Enum) (dstFile : Option LocalFile) :
    Except PyError (List StatusRecord × Bool) :=
  match dstFile with
  | none => .ok ([], true)
  | some f =>
    match IfExists.effective current cfg.ifexists with
    | .ERROR => .ok ([], false)
    | .SKIP => .ok ([skippedRecord], false)
    | .OVERWRITE => .ok ([], true)
    | .DIFFERENT =>
      if (Downloader.effSize cfg remote).elim false (fun n => !(n == f.size)) then
        .ok ([], true)
      else
        match cfg.digests.head? with
        | some (checkalgo, checksum) =>
          if hashlibAlgos.contains checkalgo then
            if checksum == f.digestOf checkalgo then .ok ([skippedRecord], false)
            else .ok ([], true)
          else .error (.attributeError checkalgo)
        | none => .ok ([], true)
    | .REFRESH =>
      match Downloader.effMtime cfg remote with
      | none => .ok ([], true)
      | some mt =>
        match Downloader.effSize cfg remote with
        | none => .ok ([], true)
        | some n =>
          if f.mtime == mt && f.size == n then .ok ([skippedRecord], false)
          else .ok ([], true)

/-- The per-chunk progress records of `Downloader.iter` (lines 415-441):
one `{'done': total-bytes-so-far}` record per chunk (percentages and
throughput figures are floating point and not modelled). -/
def Downloader.chunkRecords (downloaded : Nat) : List Nat → List StatusRecord
  | [] => []
  | n :: ns =>
    { done := some (downloaded + n) } :: Downloader.chunkRecords (downloaded + n) ns

/-- One complete run of `Downloader.iter` (downloader.py lines 352-517)
on a single attempt with no transport failure injected (the retry loop is
only entered again on `aiohttp`/timeout errors).  Returns the yielded
records and the exception escaping the generator, if any.
Mirrored behaviour:
  * lines 362-369: records of `_should_overwrite` are forwarded, and a
    `False` decision ends the run;
  * line 375: the `{'size': ...}` record;
  * line 384: `checksum, checkalgo = next(iter(self.digests.items()))` -
    the swapped unpack hands the hex value to `IncompleteFile` as
    `checkalgo`, whose `__init__` raises `TypeError`, which matches
    neither `except ValueError` nor the retryable exceptions and so
    escapes;
  * lines 394-402: when the resumed offset equals the known size the
    loop is left by `break`, after which the function ends - the
    checksum/mtime/done records are never reached;
  * lines 443-481: with no digester the digest is `None`, so the
    `checksum: -` record is yielded, mtime is set only when known, and
    `{'status': 'done'}` ends the run. -/
def Downloader.iterRun (cfg : DownloaderSpec) (remote : RemoteMeta)
    (current : Option IfExists.Enum) (dst : String) (dstFile : Option LocalFile)
    (incomplete : IncompleteDisk) (chunks : List Nat) :
    List StatusRecord × Option PyError :=
  match Downloader.should_overwrite cfg remote current dstFile with
  | .error e => ([], some e)
  | .ok (recs0, proceed) =>
    if !proceed then (recs0, none)
    else
      let size := Downloader.effSize cfg remote
      let recs1 := recs0 ++ [{ size := size }]
      let initRes :=
        match cfg.digests.head? with
        | some (algoname, hexvalue) =>
          IncompleteFile.init dst (some algoname) (some hexvalue) cfg.ifnodigest
        | none => IncompleteFile.init dst none none cfg.ifnodigest
      match initRes with
      | .error e => (recs1, some e)
      | .ok st =>
        let offset := IncompleteFile.aenterOffset st.checksum st.ifnochecksum incomplete
        if size == some offset then (recs1, none)
        else
          let progress := Downloader.chunkRecords offset chunks
          let tailRecs :=
            [checksumDashRecord] ++
            (match Downloader.effMtime cfg remote with
             | some _ => [settingMtimeRecord]
             | none => []) ++
            [doneRecord]
          (recs1 ++ progress ++ tailRecs, none)

/-! ## DownloadManager (`src/braindataprep/download/manager.py`) -/

/-- `DownloadManager.__init__` line 92: `self.ifexists =
IfExists.from_any(ifexists)` - a `None` argument becomes the class
default. -/
def DownloadManager.initIfexists (x : Option IfExists.Choice) : IfExists.Enum :=
  IfExists.from_any x

/-- The class-level `IfExists.current` in force while a batch runs: both
`run_threaded` and `run_async` wrap the whole batch in `with
IfExists(self.ifexists)` (manager.py lines 140, 175), entering a
downloader-module scope. -/
def DownloadManager.batchCurrent (x : Option IfExists.Choice)
    (current : Option IfExists.Enum) : Option IfExists.Enum :=
  ((DlIfExistsScope.mk (DownloadManager.initIfexists x) none).enter current).2

/-! ## Claim-side decision procedures (transcribed from the claims, for
comparison with the source-derived definitions) -/

/-- Claim C2's DifferentContent decision, word for word: proceed if not
all destinations exist; else proceed if an expected size is given and any
destination's actual size differs from it; else, if an expected digest is
given, proceed if and only if the recomputed digest of the first
destination differs from it; else do not proceed. -/
def C2claim.proceedDecision (fs : FS) (a : ActionSpec) : Bool :=
  if !(a.dst.all (fun d => (fs d).isSome)) then true
  else if a.size.elim false (fun n => a.dst.any (fun d => !(statSize fs d == n))) then true
  else
    match a.digests.head? with
    | some (checkalgo, checksum) =>
      !(digestOfFile fs (a.dst.headD "") checkalgo == checksum)
    | none => false

/-- Claim C2's decision transcribed for a Downloader's single destination:
proceed if the destination does not exist; else proceed if an expected
size is given and the actual size differs from it; else, if an expected
digest is given, proceed if and only if the recomputed digest differs
from it; else do not proceed. -/
def C2claim.proceedDecisionDl (cfg : DownloaderSpec) (dstFile : Option LocalFile) :
    Bool :=
  match dstFile with
  | none => true
  | some f =>
    if cfg.size.elim false (fun n => !(n == f.size)) then true
    else
      match cfg.digests.head? with
      | some (checkalgo, checksum) => !(checksum == f.digestOf checkalgo)
      | none => false

/-- Claim C6's resume condition, word for word: the partial file exists
and either an expected digest was given and equals the persisted marker,
or no expected digest was given and the configured fallback is
`continue`.  (A given digest is a nonempty hex string.) -/
def C6claim.resumeCond (checksum : Option String) (ifnochecksum : Char)
    (d : IncompleteDisk) : Prop :=
  d.tempExists = true ∧
    ((checksum ≠ none ∧ checksum ≠ some "" ∧ d.marker = checksum) ∨
     ((checksum = none ∨ checksum = some "") ∧ ifnochecksum = 'c'))

instance (checksum : Option String) (ifnochecksum : Char) (d : IncompleteDisk) :
    Decidable (C6claim.resumeCond checksum ifnochecksum d) := by
  unfold C6claim.resumeCond
  infer_instance

/-- The amended C2 decision for the Action: as the claim, but the digest
comparison ranges over every destination, not only the first. -/
def Action.differentProceeds (fs : FS) (a : ActionSpec) : Bool :=
  !(a.dst.all (fun d => (fs d).isSome)) ||
  a.dst.any (fun d => a.size.elim false (fun n => !(n == statSize fs d))) ||
  (match a.digests.head? with
   | some (checkalgo, checksum) =>
     a.dst.any (fun d => !(digestOfFile fs d checkalgo == checksum))
   | none => false)

/-- The amended C2 decision for the Downloader with an existing
destination: proceed if the effective size is known and differs, or no
digest is expected, or the expected digest differs from the recomputed
one. -/
def Downloader.differentProceeds (cfg : DownloaderSpec) (remote : RemoteMeta)
    (f : LocalFile) : Bool :=
  (Downloader.effSize cfg remote).elim false (fun n => !(n == f.size)) ||
  (match cfg.digests.head? with
   | some (checkalgo, checksum) => !(checksum == f.digestOf checkalgo)
   | none => true)

/-! ## Theorems -/

/-- Claim C1: if a produce/fetch operation ends in failure after bytes
have been written to the temporary/partial file, the final destination
path is byte-for-byte identical to its pre-run state; the temporary file
replaces the final path only when the operation ends successfully.  For
`File.__exit__` the failing exit also discards the temp artifact; for
`IncompleteFile.__aexit__` the partial file is kept for resumption while
the final path stays untouched. -/
theorem C1_atomic_publish :
    ∀ (st : TxState) (d : DlFileState),
      (File.exitCtx false st).final = st.final ∧
      (File.exitCtx false st).temp = none ∧
      (File.exitCtx true st).final =
        (match st.temp with | some t => some t | none => st.final) ∧
      (IncompleteFile.aexit false d).final = d.final ∧
      (IncompleteFile.aexit false d).temp = some d.temp ∧
      (IncompleteFile.aexit true d).final = some d.temp := by
  intro st d
  refine ⟨rfl, rfl, ?_, rfl, rfl, rfl⟩
  cases h : st.temp <;> simp [File.exitCtx, h]

/-- Claim C9: both DownloadManager batch runners install an `IfExists`
dynamic scope around the whole batch; a `None` policy argument is mapped
to the class default DIFFERENT, and while the scope is active the
effective policy of every operation is the batch override - the
downloader's own per-operation default is never consulted. -/
theorem C9_batch_scope_override :
    ∀ (x : Option IfExists.Choice) (current : Option IfExists.Enum)
      (own : IfExists.Enum),
      IfExists.effective (DownloadManager.batchCurrent x current) own =
        IfExists.from_any x ∧
      IfExists.from_any none = IfExists.Enum.DIFFERENT := by
  intro x current own
  exact ⟨rfl, rfl⟩

/-- Claim C10: for every nonempty digest algorithm name, constructing an
`IncompleteFile` with that `checkalgo` raises from the constructor's
validity check - `hasattr` is called with the algorithm string as the
object and the hashlib module as the attribute name, a `TypeError` -
before any lock is taken or any file is touched, so a digest-verified
transfer can never reach `__aenter__`. -/
theorem C10_checkalgo_raises :
    ∀ (filename : String) (checksum : Option String) (algo : String)
      (ifnochecksum : String),
      algo ≠ "" →
      IncompleteFile.init filename checksum (some algo) ifnochecksum =
        .error .typeError := by
  intro fn cs algo inc h
  have ht : pyTruthy (some algo) = true := by
    simp [pyTruthy, h]
  simp [IncompleteFile.init, ht]

/-- Witness for C10 at the algorithm name `"md5"`. -/
theorem C10_checkalgo_raises_witness :
    IncompleteFile.init "file.bin" none (some "md5") "restart" =
      .error .typeError :=
  C10_checkalgo_raises "file.bin" none "md5" "restart" (by decide)

/-- Claim C6 (amended): `IncompleteFile.__aenter__` resumes - keeping the
existing bytes, with the returned offset equal to the partial file's
length, which is zero when the partial file is empty - if and only if the
partial file exists and either an expected digest was given and equals
the persisted marker, or no expected digest was given and the configured
fallback is `continue`; in every other case it restarts and the returned
offset is zero. -/
theorem C6_resume_decision :
    ∀ (checksum : Option String) (ifnochecksum : Char) (d : IncompleteDisk),
      (IncompleteFile.aenterCont checksum ifnochecksum d = true ↔
        C6claim.resumeCond checksum ifnochecksum d) ∧
      (C6claim.resumeCond checksum ifnochecksum d →
        IncompleteFile.aenterOffset checksum ifnochecksum d = d.tempLen) ∧
      (¬ C6claim.resumeCond checksum ifnochecksum d →
        IncompleteFile.aenterOffset checksum ifnochecksum d = 0) := by
  intro cs inc d
  have hiff : IncompleteFile.aenterCont cs inc d = true ↔
      C6claim.resumeCond cs inc d := by
    cases cs with
    | none =>
      cases hm : d.marker <;> cases hT : d.tempExists <;> by_cases hc : inc = 'c' <;>
        simp [IncompleteFile.aenterCont, C6claim.resumeCond, pyTruthy, pyEqOpt,
          hm, hT, hc]
    | some s =>
      by_cases hs : s = ""
      · subst hs
        cases hm : d.marker <;> cases hT : d.tempExists <;> by_cases hc : inc = 'c' <;>
          simp [IncompleteFile.aenterCont, C6claim.resumeCond, pyTruthy, pyEqOpt,
            hm, hT, hc]
      · cases hm : d.marker with
        | none =>
          cases hT : d.tempExists <;>
            simp [IncompleteFile.aenterCont, C6claim.resumeCond, pyTruthy, pyEqOpt,
              hm, hT, hs]
        | some m =>
          by_cases hsm : s = m
          · subst hsm
            cases hT : d.tempExists <;>
              simp [IncompleteFile.aenterCont, C6claim.resumeCond, pyTruthy, pyEqOpt,
                hm, hT, hs]
          · cases hT : d.tempExists <;>
              simp [IncompleteFile.aenterCont, C6claim.resumeCond, pyTruthy, pyEqOpt,
                hm, hT, hs, hsm, Ne.symm hsm]
  refine ⟨hiff, ?_, ?_⟩
  · intro h
    have hb : IncompleteFile.aenterCont cs inc d = true := hiff.mpr h
    simp [IncompleteFile.aenterOffset, hb]
  · intro h
    cases hb : IncompleteFile.aenterCont cs inc d with
    | false => simp [IncompleteFile.aenterOffset, hb]
    | true => exact absurd (hiff.mp hb) h

/-- Witness for C6 at a 5-byte partial file whose marker matches the
expected digest: the resume offset is the partial file's length. -/
theorem C6_resume_decision_witness :
    IncompleteFile.aenterOffset (some "abc") 'r' ⟨true, 5, some "abc"⟩ = 5 :=
  (C6_resume_decision (some "abc") 'r' ⟨true, 5, some "abc"⟩).2.1 (by decide)

/-- Counterexample to claim C6 as stated: with an empty partial file whose
marker matches the expected digest, `__aenter__` resumes but the returned
offset is zero, refuting the claimed non-zero offset. -/
theorem C6_nonzero_offset_counterexample :
    ¬ (IncompleteFile.aenterCont (some "abc") 'r' ⟨true, 0, some "abc"⟩ = true →
       IncompleteFile.aenterOffset (some "abc") 'r' ⟨true, 0, some "abc"⟩ ≠ 0) := by
  decide

/-- The actions-module `IfExists` scope stack: enter an OVERWRITE scope
with no prior override, then a nested REFRESH scope. -/
def C5actOuter : ActIfExistsScope × Option IfExists.Enum :=
  (ActIfExistsScope.mk .OVERWRITE none).enter none

/-- The nested actions-module scope entered while the outer one is active. -/
def C5actInner : ActIfExistsScope × Option IfExists.Enum :=
  (ActIfExistsScope.mk .REFRESH none).enter C5actOuter.2

/-- The downloader-module scope stack with the same overrides. -/
def C5dlOuter : DlIfExistsScope × Option IfExists.Enum :=
  (DlIfExistsScope.mk .OVERWRITE none).enter none

/-- The nested downloader-module scope. -/
def C5dlInner : DlIfExistsScope × Option IfExists.Enum :=
  (DlIfExistsScope.mk .REFRESH none).enter C5dlOuter.2

/-- Claim C5, evaluated at the failing input: in the actions module,
`__enter__` saves `self.default` instead of the active `current`
(action.py line 73), so exiting the inner of two nested scopes installs
the class default DIFFERENT rather than restoring the outer override
OVERWRITE, and exiting the outer scope leaves DIFFERENT set instead of
clearing the override.  The downloader module's sibling class restores
correctly, matching the claim. -/
theorem C5_scope_restore_bug :
    (C5actInner.1.exitScope).2 = some IfExists.Enum.DIFFERENT ∧
    (C5actInner.1.exitScope).2 ≠ C5actOuter.2 ∧
    C5actOuter.2 = some IfExists.Enum.OVERWRITE ∧
    (C5actOuter.1.exitScope).2 = some IfExists.Enum.DIFFERENT ∧
    (C5dlInner.1.exitScope).2 = some IfExists.Enum.OVERWRITE ∧
    (C5dlOuter.1.exitScope).2 = none := by
  decide

/-- An existing 5-byte destination file used by the C7 evaluation. -/
def C7file : LocalFile := ⟨5, 0, fun _ => "d41d8cd98f00b204e9800998ecf8427e"⟩

/-- A filesystem holding only the destination `x`. -/
def C7fs : FS := fun s => if s == "x" then some C7file else none

/-- Claim C7, evaluated at the failing input: under the ERROR policy with
an existing destination, `Action._should_overwrite` raises
`FileExistsError` as the claim says, but `Downloader._should_overwrite`
only logs and returns - the downloader run yields no records and raises
nothing, so the operation does not fail with a precondition error. -/
theorem C7_error_if_exists :
    Action.should_overwrite C7fs ⟨["x"], none, none, [], .ERROR⟩ none =
      .error .fileExistsError ∧
    Downloader.should_overwrite ⟨.ERROR, none, none, [], "restart"⟩
      ⟨none, none⟩ none (some C7file) = .ok ([], false) ∧
    Downloader.iterRun ⟨.ERROR, none, none, [], "restart"⟩ ⟨none, none⟩ none
      "x" (some C7file) ⟨false, 0, none⟩ [] = ([], none) := by
  refine ⟨rfl, rfl, rfl⟩

/-- The md5 hex digest expected (and actually produced) in the C3 run. -/
def C3hex : String := "9e107d9d372bb6826bd81d3542a419d6"

/-- The produced output file: its md5 digest equals the expected one. -/
def C3file : LocalFile := ⟨10, 0, fun a => if a == "md5" then C3hex else "x"⟩

/-- The post-transform filesystem holding only the destination. -/
def C3fs : FS := fun s => if s == "out.bin" then some C3file else none

/-- The Action spec of the C3 run: one destination, expected digests
`{md5: C3hex}`. -/
def C3spec : ActionSpec := ⟨["out.bin"], none, none, [("md5", C3hex)], .DIFFERENT⟩

/-- Claim C3, evaluated at the failing input: the output's md5 digest
equals the expected hex value, yet the verification phase ends in a plain
error record with no `checksum` field and does not set the mtime, because
line 344 unpacks `checksum, checkalgo` in swapped order and
`get_digest(dst, checkalgo)` is called with the hex value as the
algorithm, raising `AttributeError`.  The pre-check of
`_should_overwrite` (line 236, correctly unpacked) deems the same file
identical and skips.  In the Downloader the same swap (line 384) hands
the hex value to `IncompleteFile` as `checkalgo`, whose constructor
raises `TypeError` before any transfer. -/
theorem C3_swapped_digest_check :
    Action.finishAfterSuccess C3fs C3spec =
      ([{ status := some "error",
          message := some (PyError.attributeError C3hex).msg }], false) ∧
    (Action.finishAfterSuccess C3fs C3spec).1.all
      (fun r => r.checksum == none) = true ∧
    Action.should_overwrite C3fs C3spec none = .ok ([skippedRecord], false) ∧
    IncompleteFile.init "out.bin" (some "md5") (some C3hex) "restart" =
      .error .typeError := by
  refine ⟨rfl, rfl, rfl, rfl⟩

/-- The Downloader configuration of the C4 resumed-to-completion run: no
digests, known size 5, `ifnodigest='continue'`. -/
def C4cfgBreak : DownloaderSpec := ⟨.DIFFERENT, some 5, none, [], "continue"⟩

/-- The destination file present in the C4 ERROR-policy run. -/
def C4file : LocalFile := ⟨5, 0, fun _ => "d41d8cd98f00b204e9800998ecf8427e"⟩

/-- Claim C4, evaluated at the failing inputs: a complete `Downloader`
run emits no record whose status is done/skipped/error (instead of
exactly one) both when the ERROR policy meets an existing destination
(the run yields nothing at all) and when the resumed offset already
equals the known total size (the `break` at line 402 leaves the attempt
loop past the checksum/mtime/done records, so the run ends after the
`{'size': ...}` record). -/
theorem C4_terminal_record_missing :
    Downloader.iterRun ⟨.ERROR, none, none, [], "restart"⟩ ⟨none, none⟩ none
      "x" (some C4file) ⟨false, 0, none⟩ [] = ([], none) ∧
    ((Downloader.iterRun ⟨.ERROR, none, none, [], "restart"⟩ ⟨none, none⟩ none
      "x" (some C4file) ⟨false, 0, none⟩ []).1.filter isTerminal).length = 0 ∧
    Downloader.iterRun C4cfgBreak ⟨none, none⟩ none "x" none ⟨true, 5, none⟩
      [2, 3] = ([{ size := some 5 }], none) ∧
    ((Downloader.iterRun C4cfgBreak ⟨none, none⟩ none "x" none ⟨true, 5, none⟩
      [2, 3]).1.filter isTerminal).length = 0 := by
  refine ⟨rfl, rfl, rfl, rfl⟩

/-- First destination of the C2 counterexample: its md5 digest equals the
expected one. -/
def C2fileA : LocalFile := ⟨3, 0, fun _ => "aaaa"⟩

/-- Second destination of the C2 counterexample: its md5 digest differs. -/
def C2fileB : LocalFile := ⟨3, 0, fun _ => "bbbb"⟩

/-- Filesystem of the C2 counterexample, holding both destinations. -/
def C2fs : FS :=
  fun s => if s == "a" then some C2fileA
    else if s == "b" then some C2fileB else none

/-- Action spec of the C2 counterexample: two destinations, no expected
size, expected digests `{md5: "aaaa"}`. -/
def C2spec : ActionSpec := ⟨["a", "b"], none, none, [("md5", "aaaa")], .DIFFERENT⟩

/-- Counterexample to claim C2 as stated, in the three respects the code
departs from it.  (1) Action, lines 237-243: both destinations exist, no
expected size, and the recomputed digest of the first destination equals
the expected one, so the claim says not to proceed; the code compares
every destination's digest and proceeds because the second one differs.
(2) Downloader, line 309: destination exists, the given expected size
matches and no digest is expected, so the claim says skip; the code falls
through to `yield True` and proceeds.  (3) Downloader, line 282: no
expected size is given but the server reports a differing size, and the
expected digest matches, so the claim says skip; the code substitutes the
remote size via `await self.size` and proceeds. -/
theorem C2_first_destination_counterexample :
    (Action.should_overwrite C2fs C2spec none = .ok ([], true) ∧
     C2claim.proceedDecision C2fs C2spec = false) ∧
    (Downloader.should_overwrite ⟨.DIFFERENT, some 3, none, [], "restart"⟩
       ⟨none, none⟩ none (some C2fileA) = .ok ([], true) ∧
     C2claim.proceedDecisionDl ⟨.DIFFERENT, some 3, none, [], "restart"⟩
       (some C2fileA) = false) ∧
    (Downloader.should_overwrite ⟨.DIFFERENT, none, none, [("md5", "aaaa")], "restart"⟩
       ⟨some 7, none⟩ none (some C2fileA) = .ok ([], true) ∧
     C2claim.proceedDecisionDl ⟨.DIFFERENT, none, none, [("md5", "aaaa")], "restart"⟩
       (some C2fileA) = false) :=
  ⟨⟨rfl, rfl⟩, ⟨rfl, rfl⟩, ⟨rfl, rfl⟩⟩

/-- For a valid algorithm and destinations that all exist, the digest
comprehension raises nothing and computes the any-destination-differs
disjunction. -/
theorem Action.digestDiffers_ok (fs : FS) (alg sum : String)
    (hc : alg ∈ hashlibAlgos) :
    ∀ dst : List String, (dst.all fun d => (fs d).isSome) = true →
      Action.digestDiffers fs alg sum dst =
        .ok (dst.any fun d => !(digestOfFile fs d alg == sum)) := by
  intro dst
  induction dst with
  | nil => intro _; rfl
  | cons d ds ih =>
    intro hall
    rw [List.all_cons, Bool.and_eq_true] at hall
    obtain ⟨hd, hds⟩ := hall
    obtain ⟨f, hf⟩ := Option.isSome_iff_exists.mp hd
    have hg : get_digest fs d alg = .ok (f.digestOf alg) := by
      simp [get_digest, hc, hf]
    have hof : digestOfFile fs d alg = f.digestOf alg := by
      simp [digestOfFile, hf]
    simp [Action.digestDiffers, hg, ih hds, List.any_cons, hof]

/-- Claim C2 (amended): under DifferentContent the Action proceeds iff
not all destinations exist, or an expected size is given and some
destination's size differs, or an expected digest is given and some (not
only the first) destination's recomputed digest differs; otherwise it
emits a skipped record and does not proceed.  The Downloader (one
destination) proceeds when the destination is missing; with an existing
destination it proceeds iff the effective size is known and differs, or
no digest is expected (it then falls through to `yield True`, line 309),
or the expected digest differs; only a matching expected digest emits
skipped and stops.  Both clauses assume the checked algorithm (the first
entry of the sorted digests) is one hashlib defines - otherwise
`get_digest` raises `AttributeError` instead of deciding. -/
theorem C2_different_content_decision :
    ∀ (fs : FS) (dst : List String) (size : Option Nat) (mtime : Option Int)
      (digests : List (String × String)) (size2 : Option Nat) (mtime2 : Option Int)
      (digests2 : List (String × String)) (ifnod : String) (remote : RemoteMeta)
      (f : LocalFile),
      ((digests.head?.all fun p => hashlibAlgos.contains p.1) = true →
        Action.should_overwrite fs ⟨dst, size, mtime, digests, .DIFFERENT⟩ none =
        if Action.differentProceeds fs ⟨dst, size, mtime, digests, .DIFFERENT⟩
        then .ok ([], true) else .ok ([skippedRecord], false)) ∧
      (Downloader.should_overwrite ⟨.DIFFERENT, size2, mtime2, digests2, ifnod⟩
        remote none none = .ok ([], true)) ∧
      ((digests2.head?.all fun p => hashlibAlgos.contains p.1) = true →
        Downloader.should_overwrite ⟨.DIFFERENT, size2, mtime2, digests2, ifnod⟩
          remote none (some f) =
        if Downloader.differentProceeds ⟨.DIFFERENT, size2, mtime2, digests2, ifnod⟩
          remote f
        then .ok ([], true) else .ok ([skippedRecord], false)) := by
  intro fs dst size mtime digests size2 mtime2 digests2 ifnod remote f
  refine ⟨?_, rfl, ?_⟩
  · intro hAlgA
    cases hA : (dst.all fun d => (fs d).isSome) with
    | false =>
      simp [Action.should_overwrite, Action.differentProceeds,
        IfExists.effective, hA]
    | true =>
      cases hS : (dst.any fun d => size.elim false fun n => !(n == statSize fs d)) with
      | true =>
        simp [Action.should_overwrite, Action.differentProceeds,
          IfExists.effective, hA, hS]
      | false =>
        cases hD : digests.head? with
        | none =>
          simp [Action.should_overwrite, Action.differentProceeds,
            IfExists.effective, hA, hS, hD]
        | some p =>
          obtain ⟨alg, sum⟩ := p
          have hc : alg ∈ hashlibAlgos := by
            rw [hD] at hAlgA
            simpa using hAlgA
          have hdd := Action.digestDiffers_ok fs alg sum hc dst hA
          cases hG : (dst.any fun d => !(digestOfFile fs d alg == sum)) <;>
            simp [Action.should_overwrite, Action.differentProceeds,
              IfExists.effective, hA, hS, hD, hG, hdd]
  · intro hAlg
    cases hS : ((Downloader.effSize ⟨.DIFFERENT, size2, mtime2, digests2, ifnod⟩
        remote).elim false fun n => !(n == f.size)) with
    | true =>
      simp [Downloader.should_overwrite, Downloader.differentProceeds,
        IfExists.effective, hS]
    | false =>
      cases hD : digests2.head? with
      | none =>
        simp [Downloader.should_overwrite, Downloader.differentProceeds,
          IfExists.effective, hS, hD]
      | some p =>
        obtain ⟨alg, sum⟩ := p
        have hc : alg ∈ hashlibAlgos := by
          rw [hD] at hAlg
          simpa using hAlg
        cases hG : (sum == f.digestOf alg) <;>
          simp [Downloader.should_overwrite, Downloader.differentProceeds,
            IfExists.effective, hS, hD, hc, hG]

/-- Witness for C2 at concrete states with the md5 algorithm: the Action
clause at the two-destination counterexample spec and the Downloader
clause at an existing destination with matching size and digest, both
hypotheses discharged by computation. -/
theorem C2_different_content_decision_witness :
    (Action.should_overwrite C2fs ⟨["a", "b"], none, none, [("md5", "aaaa")],
        .DIFFERENT⟩ none =
      if Action.differentProceeds C2fs ⟨["a", "b"], none, none, [("md5", "aaaa")],
          .DIFFERENT⟩
      then .ok ([], true) else .ok ([skippedRecord], false)) ∧
    (Downloader.should_overwrite
      ⟨.DIFFERENT, some 3, none, [("md5", "aaaa")], "restart"⟩
      ⟨none, none⟩ none (some C2fileA) =
    (if Downloader.differentProceeds
        ⟨.DIFFERENT, some 3, none, [("md5", "aaaa")], "restart"⟩
        ⟨none, none⟩ C2fileA
     then .ok ([], true) else .ok ([skippedRecord], false))) :=
  ⟨(C2_different_content_decision C2fs ["a", "b"] none none [("md5", "aaaa")]
      (some 3) none [("md5", "aaaa")] "restart" ⟨none, none⟩ C2fileA).1
      (by decide),
   (C2_different_content_decision C2fs ["a", "b"] none none [("md5", "aaaa")]
      (some 3) none [("md5", "aaaa")] "restart" ⟨none, none⟩ C2fileA).2.2
      (by decide)⟩
